import Mathlib

/-!
Shallow embedding of the identity / social-graph / tag core of a
realworld-style backend (Rust, actix-web + diesel).

Source files embedded:
  src/app/user/model.rs         (User, signup, signin, update, follow,
                                 unfollow, is_following, fetch_profile,
                                 generate_token)
  src/app/article/tag/model.rs  (Tag, Tag::list, Tag::create)

The database connection is modelled as an explicit state value.  Uuid
and NaiveDateTime are modelled as Nat.  Collaborators that live in this
repository but outside the embedded files (the follow model, the
password hasher, the token signer, the diesel-error to AppError mapping)
are modelled from the specification; each such definition carries a doc
comment saying so.
-/

/-- Error kinds of the core, as in the specification section 7.
The source type is AppError (src/error.rs, not in scope); the diesel
NotFound error maps to notFound, a unique-constraint violation on users
maps to duplicateEmail / duplicateUsername, a password mismatch maps to
invalidCredentials (Unauthorized in the source), the diesel
QueryBuilderError raised by an all-None changeset (EmptyChangeset:
there are no changes to save) maps to emptyChangeset, and any other
storage failure maps to storage. -/
inductive AppError where
  | notFound
  | duplicateEmail
  | duplicateUsername
  | invalidCredentials
  | credentialError
  | tokenError
  | alreadyFollowing
  | emptyChangeset
  | storage
deriving DecidableEq, Repr

/-- User row, from struct User in src/app/user/model.rs. -/
structure User where
  id : Nat
  email : String
  username : String
  password : String
  bio : Option String
  image : Option String
  created_at : Nat
  updated_at : Nat
deriving DecidableEq, Repr

/-- Follow edge, from struct Follow of the follow model (declared in
src/app/user/model.rs imports; the model file itself is not in scope).
Attributes per the specification data model: follower_id, followee_id. -/
structure Follow where
  follower_id : Nat
  followee_id : Nat
deriving DecidableEq, Repr

/-- Insert record for a follow edge, from CreateFollow. -/
structure CreateFollow where
  follower_id : Nat
  followee_id : Nat
deriving DecidableEq, Repr

/-- Delete record for a follow edge, from DeleteFollow. -/
structure DeleteFollow where
  followee_id : Nat
  follower_id : Nat
deriving DecidableEq, Repr

/-- Derived profile, from struct Profile of the profile model. -/
structure Profile where
  username : String
  bio : Option String
  image : Option String
  following : Bool
deriving DecidableEq, Repr

/-- Signup insert record, from struct SignupUser in src/app/user/model.rs. -/
structure SignupUser where
  email : String
  username : String
  password : String
deriving DecidableEq, Repr

/-- Partial changeset, from struct UpdateUser in src/app/user/model.rs.
Every field is optional; diesel AsChangeset skips fields that are None. -/
structure UpdateUser where
  email : Option String
  username : Option String
  password : Option String
  image : Option String
  bio : Option String
deriving DecidableEq, Repr

/-- A session token.  Modelled from the spec: an opaque string encoding
the pair (user_id, issued_at_seconds); we keep the payload as a record
instead of an opaque signed string (src/utils/token.rs is not in scope). -/
structure TokenData where
  user_id : Nat
  iat : Nat
deriving DecidableEq, Repr

/-- Database state reachable through one PgConnection: the users table,
the follows table, the id generator and the clock, plus a flag modelling
a failing storage collaborator (connection down). -/
structure DB where
  users : List User
  follows : List Follow
  nextId : Nat
  now : Nat
  broken : Bool
deriving DecidableEq, Repr

/-- Modelled from the spec: Credential Service hash(plaintext).  The
source calls hasher::hash_password (bcrypt, src/utils/hasher.rs, not in
scope); the spec says deterministic-format, salted, one-way, failing
with CredentialError if the primitive rejects the input (for example an
empty password).  Salting is abstracted into a deterministic tagging. -/
def hash_password (p : String) : Except AppError String :=
  if p.isEmpty then .error .credentialError else .ok ("#" ++ p)

/-- Modelled from the spec: Credential Service verify(plaintext, hash),
as used by signin: the source call hasher::verify(naive, hash)? returns
Err(Unauthorized) on mismatch, which is the InvalidCredentials kind. -/
def verify_password (naive hashed : String) : Except AppError Unit :=
  if ("#" ++ naive) == hashed then .ok () else .error .invalidCredentials

/-- Modelled from the spec: token::generate(user_id, now) issues a token
bound to the user id and the issue time; it fails only on signing-key
unavailability, which the model treats as never. -/
def generate (user_id : Nat) (now : Nat) : Except AppError TokenData :=
  .ok ⟨user_id, now⟩

/-- User::generate_token (src/app/user/model.rs lines 173-177): reads the
clock and calls token::generate(self.id, now). -/
def User.generate_token (db : DB) (self : User) : Except AppError TokenData :=
  generate self.id db.now

/-- Self::by_email(email).limit(1).first::<User>(conn): first user whose
email matches; diesel first returns Err(NotFound) when no row matches,
and a storage error when the connection is down. -/
def firstByEmail (db : DB) (email : String) : Except AppError User :=
  if db.broken then .error .storage
  else
    match db.users.find? (fun u => u.email == email) with
    | none => .error .notFound
    | some u => .ok u

/-- Self::by_username(username).first::<User>(conn), as firstByEmail. -/
def firstByUsername (db : DB) (username : String) : Except AppError User :=
  if db.broken then .error .storage
  else
    match db.users.find? (fun u => u.username == username) with
    | none => .error .notFound
    | some u => .ok u

/-- diesel insert_into(users).values(record).get_result, as used by
signup.  The id is generated by the store, timestamps come from the
clock; the users uniqueness constraints (email, username) fire as
DuplicateEmail / DuplicateUsername per the specification section 4.2
(the diesel-error mapping of src/error.rs is not in scope). -/
def insertUser (db : DB) (rec : SignupUser) : Except AppError (DB × User) :=
  if db.broken then .error .storage
  else if db.users.any (fun w => w.email == rec.email) then .error .duplicateEmail
  else if db.users.any (fun w => w.username == rec.username) then .error .duplicateUsername
  else
    let u : User :=
      ⟨db.nextId, rec.email, rec.username, rec.password, none, none, db.now, db.now⟩
    .ok ({ db with users := db.users ++ [u], nextId := db.nextId + 1 }, u)

/-- User::signup (src/app/user/model.rs lines 68-89): hash the password,
insert the row, issue a token bound to the new id. -/
def User.signup (db : DB) (email username naive_password : String) :
    Except AppError (DB × User × TokenData) := do
  let hashed ← hash_password naive_password
  let (db2, user) ← insertUser db ⟨email, username, hashed⟩
  let tok ← User.generate_token db2 user
  .ok (db2, user, tok)

/-- User::signin (src/app/user/model.rs lines 91-100): look the user up
by email, verify the password, issue a token.  Each step propagates its
own error kind with the question-mark operator. -/
def User.signin (db : DB) (email naive_password : String) :
    Except AppError (User × TokenData) := do
  let user ← firstByEmail db email
  verify_password naive_password user.password
  let tok ← User.generate_token db user
  .ok (user, tok)

/-- diesel AsChangeset semantics for UpdateUser: a field that is None is
left out of the SET clause, so the stored value is kept; a field that is
Some v is set to v.  For the two optional columns (image, bio) a
provided value is stored wrapped in some. -/
def applyChangeset (u : User) (c : UpdateUser) : User :=
  { u with
    email := c.email.getD u.email
    username := c.username.getD u.username
    password := c.password.getD u.password
    image := c.image.or u.image
    bio := c.bio.or u.bio }

/-- True when every field of the derived AsChangeset is None, so the
generated SET clause would be empty. -/
def UpdateUser.isEmptyChangeset (c : UpdateUser) : Bool :=
  c.email.isNone && c.username.isNone && c.password.isNone &&
    c.image.isNone && c.bio.isNone

/-- User::update (src/app/user/model.rs lines 107-117): diesel
update(users.filter(id.eq(user_id))).set(changeset).get_result.  When
every changeset field is None the derived AsChangeset is empty and
diesel fails at query-building time with QueryBuilderError
(EmptyChangeset), before the connection is used.  Otherwise the row
with the given id is updated in place; get_result returns the updated
row, or Err(NotFound) when no row matched. -/
def User.update (db : DB) (user_id : Nat) (changeset : UpdateUser) :
    Except AppError (DB × User) :=
  if changeset.isEmptyChangeset then .error .emptyChangeset
  else if db.broken then .error .storage
  else
    match db.users.find? (fun w => w.id == user_id) with
    | none => .error .notFound
    | some u =>
        .ok ({ db with
                users := db.users.map
                  (fun w => if w.id == user_id then applyChangeset w changeset else w) },
             applyChangeset u changeset)

/-- Modelled from the spec: Follow::create (src/app/follow/model.rs, not
in scope) inserts one FollowEdge; the unique(follower_id, followee_id)
constraint rejects a duplicate edge, surfaced as AlreadyFollowing. -/
def Follow.create (db : DB) (rec : CreateFollow) : Except AppError DB :=
  if db.broken then .error .storage
  else if db.follows.any
      (fun f => f.follower_id == rec.follower_id && f.followee_id == rec.followee_id) then
    .error .alreadyFollowing
  else .ok { db with follows := db.follows ++ [⟨rec.follower_id, rec.followee_id⟩] }

/-- Modelled from the spec: Follow::delete (src/app/follow/model.rs, not
in scope) deletes the matching edge; deleting a missing edge affects
zero rows and is not an error (idempotent delete). -/
def Follow.delete (db : DB) (rec : DeleteFollow) : Except AppError DB :=
  if db.broken then .error .storage
  else .ok { db with
              follows := db.follows.filter
                (fun f => !(f.follower_id == rec.follower_id && f.followee_id == rec.followee_id)) }

/-- User::follow (src/app/user/model.rs lines 124-141): resolve the
followee by username, insert the edge (follower is self), and return a
Profile built from the fields of self with following set to true. -/
def User.follow (db : DB) (self : User) (username : String) :
    Except AppError (DB × Profile) := do
  let followee ← firstByUsername db username
  let db2 ← Follow.create db ⟨self.id, followee.id⟩
  .ok (db2, ⟨self.username, self.bio, self.image, true⟩)

/-- User::unfollow (src/app/user/model.rs lines 143-160): resolve the
followee by username, delete the edge, and return a Profile built from
the fields of self with following set to false. -/
def User.unfollow (db : DB) (self : User) (username : String) :
    Except AppError (DB × Profile) := do
  let followee ← firstByUsername db username
  let db2 ← Follow.delete db ⟨followee.id, self.id⟩
  .ok (db2, ⟨self.username, self.bio, self.image, false⟩)

/-- The follows-table lookup inside is_following:
follows.filter(followee_id).filter(follower_id).get_result::<Follow>.
diesel get_result returns Err(NotFound) when no row matches and a
storage error when the connection is down. -/
def followGetResult (db : DB) (follower_id followee_id : Nat) :
    Except AppError Follow :=
  if db.broken then .error .storage
  else
    match db.follows.find?
        (fun f => f.followee_id == followee_id && f.follower_id == follower_id) with
    | none => .error .notFound
    | some f => .ok f

/-- Edge-existence check by ids: the body of is_following, reusable for
the profile composer. -/
def isFollowingIds (db : DB) (follower_id followee_id : Nat) : Bool :=
  match followGetResult db follower_id followee_id with
  | .ok _ => true
  | .error _ => false

/-- User::is_following (src/app/user/model.rs lines 162-169): run the
edge lookup and return follow.is_ok(); any error collapses to false. -/
def User.is_following (db : DB) (self : User) (followee_id : Nat) : Bool :=
  isFollowingIds db self.id followee_id

/-- User::fetch_profile (src/app/user/model.rs lines 191-204): build a
Profile from the fields of self, with following computed by
self.is_following(conn, folowee_id). -/
def User.fetch_profile (db : DB) (self : User) (folowee_id : Nat) :
    Except AppError Profile :=
  .ok ⟨self.username, self.bio, self.image, User.is_following db self folowee_id⟩

/-- Modelled from the spec: the Profile Composer compose(subject,
viewer_id) of specification section 4.6 (the appv2 profile usecase that
realises it is not in scope): following is
viewer_id.is_some() && is_following(viewer_id, subject.id). -/
def compose (db : DB) (subject : User) (viewer_id : Option Nat) : Profile :=
  { username := subject.username
    bio := subject.bio
    image := subject.image
    following :=
      match viewer_id with
      | none => false
      | some v => isFollowingIds db v subject.id }

/-- Tag row, from struct Tag in src/app/article/tag/model.rs. -/
structure Tag where
  id : Nat
  article_id : Nat
  name : String
  created_at : Nat
  updated_at : Nat
deriving DecidableEq, Repr

/-- Insert record, from struct NewTag in src/app/article/tag/model.rs. -/
structure NewTag where
  name : String
  article_id : Nat
deriving DecidableEq, Repr

/-- State reachable through the tag-model PgConnection: the tags table
in storage order, the id generator and the clock, plus a flag modelling
a failing storage collaborator. -/
structure TagDB where
  rows : List Tag
  nextId : Nat
  now : Nat
  broken : Bool
deriving DecidableEq, Repr

/-- Outcome of a call that may panic: Tag::create uses expect, which
aborts the thread instead of returning a Result. -/
inductive AbortOr (α : Type) where
  | aborted : AbortOr α
  | ok : α → AbortOr α
deriving DecidableEq, Repr

/-- True when the call aborted (panicked) instead of returning. -/
def AbortOr.isAborted {α : Type} : AbortOr α → Bool
  | .aborted => true
  | .ok _ => false

/-- The rows created by one bulk insert: one row per record, in record
order, ids assigned consecutively, timestamps from the clock. -/
def mkRows (nextId now : Nat) : List NewTag → List Tag
  | [] => []
  | r :: rs => ⟨nextId, r.article_id, r.name, now, now⟩ :: mkRows (nextId + 1) now rs

/-- diesel insert_into(tags).values(records).get_results, as called by
Tag::create.  A bulk insert with an empty batch is a no-op that returns
the empty list without touching the connection; a non-empty batch fails
with a storage error when the connection is down, and otherwise appends
one row per record, returning the inserted rows in insertion order. -/
def insertTags (db : TagDB) (records : List NewTag) :
    Except AppError (TagDB × List Tag) :=
  if records.isEmpty then .ok (db, [])
  else if db.broken then .error .storage
  else
    let created := mkRows db.nextId db.now records
    .ok ({ db with rows := db.rows ++ created, nextId := db.nextId + records.length },
         created)

/-- Tag::create (src/app/article/tag/model.rs lines 31-40): run the bulk
insert and call expect on the result, which panics (aborts) on any
insert error instead of returning it. -/
def Tag.create (db : TagDB) (records : List NewTag) : AbortOr (TagDB × List Tag) :=
  match insertTags db records with
  | .error _ => .aborted
  | .ok r => .ok r

/-- Tag::list (src/app/article/tag/model.rs lines 19-29):
tags.limit(5).load::<Tag>(conn).  No ORDER BY is applied, so the rows
come back in storage order, at most five of them. -/
def Tag.list (db : TagDB) : Except AppError (List Tag) :=
  if db.broken then .error .storage else .ok (db.rows.take 5)

/-- Descending by created_at, pairwise: the order the specification
claims for the recent-tags listing. -/
def sortedByCreatedDesc : List Tag → Bool
  | [] => true
  | [_] => true
  | a :: b :: rest => (b.created_at ≤ a.created_at) && sortedByCreatedDesc (b :: rest)

/-- A stored user, for concrete evaluations: password is the stored hash
of the plaintext pw. -/
def exAlice : User := ⟨1, "a@b", "alice", "#pw", none, none, 0, 0⟩

/-- A second stored user, the followee in concrete evaluations. -/
def exBob : User := ⟨2, "b@b", "bob", "#pw", none, none, 0, 0⟩

/-- A healthy store holding exAlice and exBob and no follow edge. -/
def exDB : DB := ⟨[exAlice, exBob], [], 3, 5, false⟩

/-- exDB after alice follows bob. -/
def exDBFollowed : DB := { exDB with follows := [⟨1, 2⟩] }

/-- A store whose connection is down. -/
def brokenDB : DB := ⟨[], [], 0, 0, true⟩

/-- A tag store whose connection is down. -/
def brokenTagDB : TagDB := ⟨[], 0, 0, true⟩

/-- A tag created at time 0. -/
def exTagOld : Tag := ⟨1, 1, "old", 0, 0⟩

/-- A tag created at time 9, stored after exTagOld. -/
def exTagNew : Tag := ⟨2, 1, "new", 9, 9⟩

/-- A healthy tag store whose storage order is ascending by creation
time: the older tag sits first. -/
def exTagDB : TagDB := ⟨[exTagOld, exTagNew], 3, 9, false⟩

/-- A healthy empty tag store. -/
def emptyTagDB : TagDB := ⟨[], 0, 0, false⟩

/-- A changeset that provides email and image and leaves the other
fields out. -/
def exChangeset : UpdateUser := ⟨some "new@b", none, none, some "pic", none⟩

/-- A changeset that provides nothing: the diesel empty-changeset case. -/
def exEmptyChangeset : UpdateUser := ⟨none, none, none, none, none⟩

/- Helper lemmas shared by several proofs. -/

theorem okBind {ε α β : Type} (a : α) (f : α → Except ε β) :
    (Except.ok a >>= f) = f a := rfl

theorem errBind {ε α β : Type} (e : ε) (f : α → Except ε β) :
    ((Except.error e : Except ε α) >>= f) = Except.error e := rfl

theorem broken_false_of_firstByUsername_ok {db : DB} {uname : String} {B : User}
    (h : firstByUsername db uname = .ok B) : db.broken = false := by
  by_contra hb
  have hb2 : db.broken = true := by revert hb; cases db.broken <;> simp
  unfold firstByUsername at h
  rw [hb2] at h
  simp at h

theorem broken_false_of_firstByEmail_ok {db : DB} {email : String} {u : User}
    (h : firstByEmail db email = .ok u) : db.broken = false := by
  by_contra hb
  have hb2 : db.broken = true := by revert hb; cases db.broken <;> simp
  unfold firstByEmail at h
  rw [hb2] at h
  simp at h

theorem isFollowingIds_eq_true_iff (db : DB) (fr fe : Nat) :
    isFollowingIds db fr fe = true ↔
      (db.broken = false ∧ ∃ f ∈ db.follows, f.follower_id = fr ∧ f.followee_id = fe) := by
  unfold isFollowingIds followGetResult
  cases hb : db.broken with
  | true => simp
  | false =>
    simp only [Bool.false_eq_true, if_false, true_and]
    cases hf : db.follows.find? (fun f => f.followee_id == fe && f.follower_id == fr) with
    | none =>
      simp only [hf]
      constructor
      · intro h; cases h
      · rintro ⟨f, hmem, h1, h2⟩
        rw [List.find?_eq_none] at hf
        exact absurd (by simp [h1, h2]) (hf f hmem)
    | some f =>
      simp only [hf]
      constructor
      · intro _
        refine ⟨f, List.mem_of_find?_eq_some hf, ?_, ?_⟩
        · have := List.find?_some hf
          simp only [Bool.and_eq_true, beq_iff_eq] at this
          exact this.2
        · have := List.find?_some hf
          simp only [Bool.and_eq_true, beq_iff_eq] at this
          exact this.1
      · intro _; trivial

/-- Claim C1, counterexample: on a store holding a user with email a@b
and password hash of pw, signin with the right email but a wrong
password yields InvalidCredentials, while signin with an email that
matches no user yields NotFound — two different error kinds, so the
caller can distinguish the cases, contrary to the claim. -/
theorem signin_kinds_differ_counterexample :
    User.signin exDB "a@b" "zz" = .error .invalidCredentials ∧
    User.signin exDB "x@y" "pw" = .error .notFound ∧
    AppError.invalidCredentials ≠ AppError.notFound :=
  ⟨rfl, rfl, by decide⟩

/-- Claim C1, amended: signin with an existing email and a wrong
password returns InvalidCredentials, while signin with an email that
matches no user returns NotFound (the diesel NotFound of the lookup is
propagated unmodified); the two cases are distinguishable. -/
theorem signin_error_kinds :
    ∀ (db : DB) (email pw : String),
      (∀ u : User, firstByEmail db email = .ok u →
          verify_password pw u.password = .error .invalidCredentials →
          User.signin db email pw = .error .invalidCredentials) ∧
      (db.broken = false →
          db.users.find? (fun u => u.email == email) = none →
          User.signin db email pw = .error .notFound) := by
  intro db email pw
  constructor
  · intro u h1 h2
    simp only [User.signin, h1, okBind, h2, errBind]
  · intro hb hf
    have h1 : firstByEmail db email = .error .notFound := by
      unfold firstByEmail
      rw [hb]
      simp [hf]
    simp only [User.signin, h1, errBind]

/-- Claim C1, witness for the amended theorem at the concrete store. -/
theorem signin_error_kinds_witness :
    User.signin exDB "a@b" "zz" = .error .invalidCredentials ∧
    User.signin exDB "x@y" "pw" = .error .notFound :=
  ⟨(signin_error_kinds exDB "a@b" "zz").1 exAlice rfl rfl,
   (signin_error_kinds exDB "x@y" "pw").2 rfl rfl⟩

/-- Claim C5: is_following is total (it returns a Bool, never an error)
and it returns true exactly when the connection is healthy and a
matching edge is stored; hence it returns false on any lookup miss and
on any underlying lookup error (broken connection). -/
theorem is_following_never_fails :
    ∀ (db : DB) (self : User) (followee_id : Nat),
      User.is_following db self followee_id = true ↔
        (db.broken = false ∧
          ∃ f ∈ db.follows, f.follower_id = self.id ∧ f.followee_id = followee_id) :=
  fun db self fid => isFollowingIds_eq_true_iff db self.id fid

/-- Claim C10: composing a profile for an absent viewer always yields
following = false, whatever the follow-graph state. -/
theorem compose_anonymous_never_following :
    ∀ (db : DB) (subject : User), (compose db subject none).following = false :=
  fun _ _ => rfl

/-- Claim C2: after a successful follow of B (resolved by username) by
A, is_following(A, B) is true; after a successful unfollow it is false. -/
theorem follow_then_is_following :
    (∀ (db : DB) (A : User) (uname : String) (B : User) (db2 : DB) (p : Profile),
        firstByUsername db uname = .ok B →
        User.follow db A uname = .ok (db2, p) →
        User.is_following db2 A B.id = true) ∧
    (∀ (db : DB) (A : User) (uname : String) (B : User) (db2 : DB) (p : Profile),
        firstByUsername db uname = .ok B →
        User.unfollow db A uname = .ok (db2, p) →
        User.is_following db2 A B.id = false) := by
  constructor
  · intro db A uname B db2 p h1 h2
    have hb : db.broken = false := broken_false_of_firstByUsername_ok h1
    unfold User.follow at h2
    rw [h1] at h2
    simp only [okBind] at h2
    unfold Follow.create at h2
    rw [hb] at h2
    simp only [Bool.false_eq_true, if_false] at h2
    cases hdup : db.follows.any (fun f => f.follower_id == A.id && f.followee_id == B.id) with
    | true =>
      rw [hdup] at h2
      simp [errBind] at h2
    | false =>
      rw [hdup] at h2
      simp only [Bool.false_eq_true, if_false, okBind] at h2
      simp only [Except.ok.injEq, Prod.mk.injEq] at h2
      obtain ⟨h3, -⟩ := h2
      subst h3
      exact (isFollowingIds_eq_true_iff _ A.id B.id).mpr
        ⟨rfl, ⟨A.id, B.id⟩, by simp, rfl, rfl⟩
  · intro db A uname B db2 p h1 h2
    have hb : db.broken = false := broken_false_of_firstByUsername_ok h1
    unfold User.unfollow at h2
    rw [h1] at h2
    simp only [okBind] at h2
    unfold Follow.delete at h2
    rw [hb] at h2
    simp only [Bool.false_eq_true, if_false, okBind] at h2
    simp only [Except.ok.injEq, Prod.mk.injEq] at h2
    obtain ⟨h3, -⟩ := h2
    subst h3
    refine Bool.eq_false_iff.mpr ?_
    intro htrue
    obtain ⟨-, f, hmem, hfr, hfe⟩ := (isFollowingIds_eq_true_iff _ _ _).mp htrue
    have hq := (List.mem_filter.mp hmem).2
    simp [hfr, hfe] at hq

/-- Claim C2, witness: alice follows bob on the concrete store and
is_following flips to true; alice unfollows bob and it flips to false. -/
theorem follow_then_is_following_witness :
    User.is_following exDBFollowed exAlice exBob.id = true ∧
    User.is_following exDB exAlice exBob.id = false :=
  ⟨follow_then_is_following.1 exDB exAlice "bob" exBob exDBFollowed
      ⟨"alice", none, none, true⟩ rfl rfl,
   follow_then_is_following.2 exDBFollowed exAlice "bob" exBob exDB
      ⟨"alice", none, none, false⟩ rfl rfl⟩

/-- Claim C4: the Profile returned by follow, unfollow and fetch_profile
takes username, bio and image from the caller (self), not from the
followee; follow returns following = true and unfollow returns
following = false unconditionally, and fetch_profile fills following
from the is_following lookup. -/
theorem profile_fields_from_caller :
    (∀ (db : DB) (self : User) (uname : String) (db2 : DB) (p : Profile),
        User.follow db self uname = .ok (db2, p) →
        p = ⟨self.username, self.bio, self.image, true⟩) ∧
    (∀ (db : DB) (self : User) (uname : String) (db2 : DB) (p : Profile),
        User.unfollow db self uname = .ok (db2, p) →
        p = ⟨self.username, self.bio, self.image, false⟩) ∧
    (∀ (db : DB) (self : User) (folowee_id : Nat) (p : Profile),
        User.fetch_profile db self folowee_id = .ok p →
        p = ⟨self.username, self.bio, self.image, User.is_following db self folowee_id⟩) := by
  refine ⟨?_, ?_, ?_⟩
  · intro db self uname db2 p h2
    cases h1 : firstByUsername db uname with
    | error e =>
      unfold User.follow at h2
      rw [h1] at h2
      simp only [errBind] at h2
      simp at h2
    | ok B =>
      unfold User.follow at h2
      rw [h1] at h2
      simp only [okBind] at h2
      cases h3 : Follow.create db ⟨self.id, B.id⟩ with
      | error e =>
        rw [h3] at h2
        simp only [errBind] at h2
        simp at h2
      | ok dbx =>
        rw [h3] at h2
        simp only [okBind, Except.ok.injEq, Prod.mk.injEq] at h2
        exact h2.2.symm
  · intro db self uname db2 p h2
    cases h1 : firstByUsername db uname with
    | error e =>
      unfold User.unfollow at h2
      rw [h1] at h2
      simp only [errBind] at h2
      simp at h2
    | ok B =>
      unfold User.unfollow at h2
      rw [h1] at h2
      simp only [okBind] at h2
      cases h3 : Follow.delete db ⟨B.id, self.id⟩ with
      | error e =>
        rw [h3] at h2
        simp only [errBind] at h2
        simp at h2
      | ok dbx =>
        rw [h3] at h2
        simp only [okBind, Except.ok.injEq, Prod.mk.injEq] at h2
        exact h2.2.symm
  · intro db self folowee_id p h
    simp only [User.fetch_profile, Except.ok.injEq] at h
    exact h.symm

/-- Claim C4, witness: at the concrete store, the profiles returned by
follow, unfollow and fetch_profile carry the fields of the caller. -/
theorem profile_fields_from_caller_witness :
    (⟨"alice", none, none, true⟩ : Profile) =
      ⟨exAlice.username, exAlice.bio, exAlice.image, true⟩ ∧
    (⟨"alice", none, none, false⟩ : Profile) =
      ⟨exAlice.username, exAlice.bio, exAlice.image, false⟩ ∧
    (⟨"alice", none, none, false⟩ : Profile) =
      ⟨exAlice.username, exAlice.bio, exAlice.image,
        User.is_following exDB exAlice exBob.id⟩ :=
  ⟨profile_fields_from_caller.1 exDB exAlice "bob" exDBFollowed
      ⟨"alice", none, none, true⟩ rfl,
   profile_fields_from_caller.2.1 exDBFollowed exAlice "bob" exDB
      ⟨"alice", none, none, false⟩ rfl,
   profile_fields_from_caller.2.2 exDB exAlice exBob.id
      ⟨"alice", none, none, false⟩ rfl⟩

/-- Claim C3: with a healthy store, a nonempty password and no
conflicting row, signup succeeds, appends the new row, and the returned
token embeds exactly the id of the newly created user. -/
theorem signup_token_binds_new_id :
    ∀ (db : DB) (e u p : String),
      db.broken = false →
      p.isEmpty = false →
      (db.users.any fun w => w.email == e) = false →
      (db.users.any fun w => w.username == u) = false →
      User.signup db e u p =
        .ok ({ db with
                users := db.users ++
                  [⟨db.nextId, e, u, "#" ++ p, none, none, db.now, db.now⟩],
                nextId := db.nextId + 1 },
             ⟨db.nextId, e, u, "#" ++ p, none, none, db.now, db.now⟩,
             ⟨db.nextId, db.now⟩) ∧
      (⟨db.nextId, db.now⟩ : TokenData).user_id =
        (⟨db.nextId, e, u, "#" ++ p, none, none, db.now, db.now⟩ : User).id := by
  intro db e u p hb hp he hu
  constructor
  · simp only [User.signup, hash_password, hp, Bool.false_eq_true, if_false, okBind,
      insertUser, hb, he, hu, User.generate_token, generate]
  · rfl

/-- Claim C3, witness at the concrete store: carol signs up and the
token user id is the generated id. -/
theorem signup_token_binds_new_id_witness :
    User.signup exDB "c@c" "carol" "pw" =
      .ok ({ exDB with
              users := exDB.users ++
                [⟨exDB.nextId, "c@c", "carol", "#" ++ "pw", none, none, exDB.now, exDB.now⟩],
              nextId := exDB.nextId + 1 },
           ⟨exDB.nextId, "c@c", "carol", "#" ++ "pw", none, none, exDB.now, exDB.now⟩,
           ⟨exDB.nextId, exDB.now⟩) ∧
    (⟨exDB.nextId, exDB.now⟩ : TokenData).user_id =
      (⟨exDB.nextId, "c@c", "carol", "#" ++ "pw", none, none, exDB.now, exDB.now⟩ : User).id :=
  signup_token_binds_new_id exDB "c@c" "carol" "pw" rfl rfl rfl rfl

/-- Claim C9: update touches exactly the row with the given id; each
changeset field that is Some v overwrites that field, each field that is
None keeps the stored value; id and the timestamps are untouched and
every other user row is still present unchanged.  A changeset that
provides no field at all never reaches the row: diesel rejects the
empty SET clause with the EmptyChangeset query-builder error. -/
theorem update_partial_frame :
    ∀ (db : DB) (uid : Nat) (c : UpdateUser) (u : User),
      db.broken = false →
      db.users.find? (fun w => w.id == uid) = some u →
      (c.isEmptyChangeset = true →
        User.update db uid c = .error .emptyChangeset) ∧
      (c.isEmptyChangeset = false →
        User.update db uid c =
          .ok ({ db with users := db.users.map (fun w =>
                  if w.id == uid then applyChangeset w c else w) },
               applyChangeset u c)) ∧
      (∀ v, c.email = some v → (applyChangeset u c).email = v) ∧
      (c.email = none → (applyChangeset u c).email = u.email) ∧
      (∀ v, c.username = some v → (applyChangeset u c).username = v) ∧
      (c.username = none → (applyChangeset u c).username = u.username) ∧
      (∀ v, c.password = some v → (applyChangeset u c).password = v) ∧
      (c.password = none → (applyChangeset u c).password = u.password) ∧
      (∀ v, c.image = some v → (applyChangeset u c).image = some v) ∧
      (c.image = none → (applyChangeset u c).image = u.image) ∧
      (∀ v, c.bio = some v → (applyChangeset u c).bio = some v) ∧
      (c.bio = none → (applyChangeset u c).bio = u.bio) ∧
      (applyChangeset u c).id = u.id ∧
      (applyChangeset u c).created_at = u.created_at ∧
      (applyChangeset u c).updated_at = u.updated_at ∧
      (∀ w ∈ db.users, (w.id == uid) = false →
        w ∈ db.users.map (fun w => if w.id == uid then applyChangeset w c else w)) := by
  intro db uid c u hb hf
  refine ⟨?_, ?_, ?_, ?_, ?_, ?_, ?_, ?_, ?_, ?_, ?_, ?_, rfl, rfl, rfl, ?_⟩
  · intro hemp
    simp [User.update, hemp]
  · intro hemp
    simp only [User.update, hemp, hb, Bool.false_eq_true, if_false, hf]
  · intro v hv; simp [applyChangeset, hv]
  · intro hv; simp [applyChangeset, hv]
  · intro v hv; simp [applyChangeset, hv]
  · intro hv; simp [applyChangeset, hv]
  · intro v hv; simp [applyChangeset, hv]
  · intro hv; simp [applyChangeset, hv]
  · intro v hv; simp [applyChangeset, hv, Option.or]
  · intro hv; simp [applyChangeset, hv, Option.or]
  · intro v hv; simp [applyChangeset, hv, Option.or]
  · intro hv; simp [applyChangeset, hv, Option.or]
  · intro w hw hne
    exact List.mem_map.mpr ⟨w, hw, by simp [hne]⟩

/-- Claim C9, witness: alice gets a new email and image; username stays,
bio stays, the update result is the expected store, and the all-None
changeset is rejected with the empty-changeset error. -/
theorem update_partial_frame_witness :
    User.update exDB 1 exEmptyChangeset = .error .emptyChangeset ∧
    User.update exDB 1 exChangeset =
      .ok ({ exDB with users := exDB.users.map (fun w =>
              if w.id == 1 then applyChangeset w exChangeset else w) },
           applyChangeset exAlice exChangeset) ∧
    (applyChangeset exAlice exChangeset).email = "new@b" ∧
    (applyChangeset exAlice exChangeset).username = exAlice.username ∧
    (applyChangeset exAlice exChangeset).image = some "pic" ∧
    (applyChangeset exAlice exChangeset).bio = exAlice.bio := by
  obtain ⟨-, h1, h2, -, -, h3, -, -, h4, -, -, h5, -⟩ :=
    update_partial_frame exDB 1 exChangeset exAlice rfl rfl
  obtain ⟨h0, -⟩ :=
    update_partial_frame exDB 1 exEmptyChangeset exAlice rfl rfl
  exact ⟨h0 rfl, h1 rfl, h2 "new@b" rfl, h3 rfl, h4 "pic" rfl, h5 rfl⟩

theorem mkRows_map_name (i now : Nat) (l : List NewTag) :
    (mkRows i now l).map (fun t => t.name) = l.map (fun r => r.name) := by
  induction l generalizing i with
  | nil => rfl
  | cons r rs ih => simp [mkRows, ih]

theorem mkRows_length (i now : Nat) (l : List NewTag) :
    (mkRows i now l).length = l.length := by
  induction l generalizing i with
  | nil => rfl
  | cons r rs ih => simp [mkRows, ih]

theorem mkRows_article (i now aid : Nat) (l : List NewTag)
    (h : (l.all fun r => r.article_id == aid) = true) :
    ((mkRows i now l).all fun t => t.article_id == aid) = true := by
  induction l generalizing i with
  | nil => rfl
  | cons r rs ih =>
    simp only [List.all_cons, Bool.and_eq_true] at h
    simp only [mkRows, List.all_cons, Bool.and_eq_true]
    exact ⟨h.1, ih _ h.2⟩

/-- Claim C6, counterexample: with the connection down, Tag::create on a
one-record batch aborts (the expect panic) instead of returning the
insert failure as a typed error value. -/
theorem tag_create_aborts_counterexample :
    (Tag.create brokenTagDB [⟨"rust", 1⟩]).isAborted = true := rfl

/-- Claim C6, amended: storage and credential failures inside the
user-directory operations (signup, signin, update, follow, unfollow)
propagate to the caller as typed error values — a storage failure as
storage, a rejected password as the CredentialError of the hashing
primitive — but bulk tag creation panics (aborts) on an insert
failure instead of returning a typed error. -/
theorem failures_typed_except_tag_create :
    (∀ (db : DB) (e u p : String), db.broken = true → p.isEmpty = false →
        User.signup db e u p = .error .storage) ∧
    (∀ (db : DB) (e u p : String), p.isEmpty = true →
        User.signup db e u p = .error .credentialError) ∧
    (∀ (db : DB) (e p : String), db.broken = true →
        User.signin db e p = .error .storage) ∧
    (∀ (db : DB) (uid : Nat) (c : UpdateUser),
        db.broken = true → c.isEmptyChangeset = false →
        User.update db uid c = .error .storage) ∧
    (∀ (db : DB) (self : User) (uname : String), db.broken = true →
        User.follow db self uname = .error .storage) ∧
    (∀ (db : DB) (self : User) (uname : String), db.broken = true →
        User.unfollow db self uname = .error .storage) ∧
    (∀ (tdb : TagDB) (recs : List NewTag), tdb.broken = true → recs.isEmpty = false →
        (Tag.create tdb recs).isAborted = true) := by
  refine ⟨?_, ?_, ?_, ?_, ?_, ?_, ?_⟩
  · intro db e u p hb hp
    simp [User.signup, hash_password, hp, insertUser, hb, okBind, errBind]
  · intro db e u p hp
    simp [User.signup, hash_password, hp, errBind]
  · intro db e p hb
    have h1 : firstByEmail db e = .error .storage := by
      unfold firstByEmail
      rw [hb]
      simp
    simp only [User.signin, h1, errBind]
  · intro db uid c hb hemp
    simp [User.update, hemp, hb]
  · intro db self uname hb
    have h1 : firstByUsername db uname = .error .storage := by
      unfold firstByUsername
      rw [hb]
      simp
    simp only [User.follow, h1, errBind]
  · intro db self uname hb
    have h1 : firstByUsername db uname = .error .storage := by
      unfold firstByUsername
      rw [hb]
      simp
    simp only [User.unfollow, h1, errBind]
  · intro tdb recs hb hr
    unfold Tag.create insertTags
    rw [hr, hb]
    simp [AbortOr.isAborted]

/-- Claim C6, witness for the amended theorem: all five user-directory
operations return typed errors on a broken store, signup returns the
credential error on a rejected password, and tag creation aborts. -/
theorem failures_typed_except_tag_create_witness :
    User.signup brokenDB "e@e" "eve" "pw" = .error .storage ∧
    User.signup exDB "e@e" "eve" "" = .error .credentialError ∧
    User.signin brokenDB "e@e" "pw" = .error .storage ∧
    User.update brokenDB 1 exChangeset = .error .storage ∧
    User.follow brokenDB exAlice "bob" = .error .storage ∧
    User.unfollow brokenDB exAlice "bob" = .error .storage ∧
    (Tag.create brokenTagDB [⟨"go", 2⟩]).isAborted = true :=
  ⟨failures_typed_except_tag_create.1 brokenDB "e@e" "eve" "pw" rfl rfl,
   failures_typed_except_tag_create.2.1 exDB "e@e" "eve" "" rfl,
   failures_typed_except_tag_create.2.2.1 brokenDB "e@e" "pw" rfl,
   failures_typed_except_tag_create.2.2.2.1 brokenDB 1 exChangeset rfl rfl,
   failures_typed_except_tag_create.2.2.2.2.1 brokenDB exAlice "bob" rfl,
   failures_typed_except_tag_create.2.2.2.2.2.1 brokenDB exAlice "bob" rfl,
   failures_typed_except_tag_create.2.2.2.2.2.2 brokenTagDB [⟨"go", 2⟩] rfl rfl⟩

/-- Claim C7: on a healthy store create_tags inserts one Tag per name,
all owned by the given article, and returns them preserving the input
order; an empty batch returns the empty list on every store and is not
an error. -/
theorem create_tags_order_and_empty :
    (∀ (db : TagDB) (aid : Nat) (names : List String),
        db.broken = false →
        Tag.create db (names.map fun n => (⟨n, aid⟩ : NewTag)) =
          .ok ({ db with
                  rows := db.rows ++
                    mkRows db.nextId db.now (names.map fun n => ⟨n, aid⟩),
                  nextId := db.nextId + names.length },
               mkRows db.nextId db.now (names.map fun n => ⟨n, aid⟩)) ∧
        (mkRows db.nextId db.now (names.map fun n => ⟨n, aid⟩)).map
            (fun t => t.name) = names ∧
        (mkRows db.nextId db.now (names.map fun n => ⟨n, aid⟩)).length = names.length ∧
        ((mkRows db.nextId db.now (names.map fun n => ⟨n, aid⟩)).all fun t =>
            t.article_id == aid) = true) ∧
    (∀ db : TagDB, Tag.create db [] = .ok (db, [])) := by
  constructor
  · intro db aid names hb
    refine ⟨?_, ?_, ?_, ?_⟩
    · cases names with
      | nil => simp [Tag.create, insertTags, mkRows]
      | cons n ns =>
        simp [Tag.create, insertTags, hb, mkRows]
    · rw [mkRows_map_name, List.map_map]
      have hcomp : ((fun r : NewTag => r.name) ∘ fun n => (⟨n, aid⟩ : NewTag)) =
          fun n => n := rfl
      rw [hcomp]
      simp
    · rw [mkRows_length]
      simp
    · refine mkRows_article _ _ _ _ ?_
      simp [List.all_eq_true]
  · intro db
    rfl

/-- Claim C7, witness: inserting names a, b for article 7 into the empty
store preserves the order; the empty batch is a no-op. -/
theorem create_tags_order_and_empty_witness :
    (mkRows emptyTagDB.nextId emptyTagDB.now
        (["a", "b"].map fun n => (⟨n, 7⟩ : NewTag))).map (fun t => t.name) = ["a", "b"] ∧
    Tag.create emptyTagDB [] = .ok (emptyTagDB, []) := by
  obtain ⟨-, h2, -, -⟩ := create_tags_order_and_empty.1 emptyTagDB 7 ["a", "b"] rfl
  exact ⟨h2, create_tags_order_and_empty.2 emptyTagDB⟩

/-- Claim C8, counterexample: on a store whose two rows sit in ascending
creation order, the listing returns them in storage order, which is not
descending by creation time — the source query has no ORDER BY. -/
theorem tag_list_unsorted_counterexample :
    Tag.list exTagDB = .ok [exTagOld, exTagNew] ∧
    sortedByCreatedDesc [exTagOld, exTagNew] = false :=
  ⟨rfl, by decide⟩

/-- Claim C8, amended: the listing returns the first rows in storage
order, hardcoded to at most 5 of them; the bound holds for every store
state, but no ordering by creation time is applied. -/
theorem tag_list_bounded_storage_order :
    ∀ (db : TagDB) (l : List Tag), Tag.list db = .ok l →
      l = db.rows.take 5 ∧ l.length ≤ 5 := by
  intro db l h
  unfold Tag.list at h
  cases hb : db.broken with
  | true =>
    rw [hb] at h
    simp at h
  | false =>
    rw [hb] at h
    simp only [Bool.false_eq_true, if_false, Except.ok.injEq] at h
    subst h
    exact ⟨rfl, List.length_take_le _ _⟩

/-- Claim C8, witness at the concrete two-row store. -/
theorem tag_list_bounded_storage_order_witness :
    ([exTagOld, exTagNew] : List Tag) = exTagDB.rows.take 5 ∧
    ([exTagOld, exTagNew] : List Tag).length ≤ 5 :=
  tag_list_bounded_storage_order exTagDB [exTagOld, exTagNew] rfl
